import Mathlib

/-!
Verification of the ATM state machine from `state-machine-atm`
(`src/atm.rs`, `src/traits.rs`).

The transition function `Atm.next_state`, the domain types `Key`, `Action`
and `Auth`, and the default state are embedded directly from `src/atm.rs`.
The pin-hashing pipeline (std `DefaultHasher` over a `Vec<Key>`) lives in
the standard library and in a crate root that is not part of the given
sources, so it is modelled from the spec (see `hash` below).
-/

namespace StateMachineAtm

/-- The keys on the ATM keypad (`enum Key` in `src/atm.rs`). -/
inductive Key where
  | One
  | Two
  | Three
  | Four
  | Enter
  deriving DecidableEq, Repr

/-- Something you can do to the ATM (`enum Action` in `src/atm.rs`).
`u64` pin hashes are embedded as `Nat`; the transition function performs
no arithmetic on them, only equality tests. -/
inductive Action where
  | SwipeCard (pinHash : Nat)
  | PressKey (k : Key)
  deriving DecidableEq, Repr

/-- The various states of authentication possible with the ATM
(`enum Auth` in `src/atm.rs`). -/
inductive Auth where
  | Waiting
  | Authenticating (pinHash : Nat)
  | Authenticated
  deriving DecidableEq, Repr

/-- `impl Default for Auth` in `src/atm.rs`: the default value is `Waiting`. -/
def Auth.default : Auth := Auth.Waiting

/-- The constant the `Enter` branch of `next_state` compares against
(`let expected_pin_hash = 1234;` inside `src/atm.rs`, line 100). -/
def expected_pin_hash : Nat := 1234

/-- `Atm::next_state` from `src/atm.rs` (impl of `StateMachine` for `Atm`),
arm for arm; the final catch-all returns `Waiting`. -/
def Atm.next_state : Auth → Action → Auth
  | Auth.Waiting, Action.SwipeCard pin_hash => Auth.Authenticating pin_hash
  | Auth.Authenticating pin_hash, Action.PressKey Key.Enter =>
      if pin_hash = expected_pin_hash then Auth.Authenticated else Auth.Waiting
  | Auth.Authenticating pin_hash, Action.PressKey _ => Auth.Authenticating pin_hash
  | Auth.Authenticated, Action.PressKey _ => Auth.Authenticated
  | _, _ => Auth.Waiting

/-- The rows of the transition table that the spec lists explicitly
(§4.3): `(Waiting, SwipeCard _)`, `(Authenticating _, PressKey _)` (both
the `Enter` row and the `k ≠ Enter` row) and `(Authenticated, PressKey _)`.
Every other pair is unlisted and must fall through to `Waiting`. -/
def listedRule : Auth → Action → Bool
  | Auth.Waiting, Action.SwipeCard _ => true
  | Auth.Authenticating _, Action.PressKey _ => true
  | Auth.Authenticated, Action.PressKey _ => true
  | _, _ => false

/-! ## The hashing pipeline

Modelled from the spec: the crate root (with the `Hash` impl for `Key`
that the tests in `src/atm.rs` rely on) is not among the given sources,
and `DefaultHasher` is the standard library's. The spec (§2, §4.2, §9)
requires a deterministic, order-sensitive 64-bit digest computed by one
fixed process-wide algorithm; std's `DefaultHasher` is SipHash-1-3 with
both keys zero. `Vec<Key>` hashing writes the length as an 8-byte
little-endian word followed by each key's variant index as an 8-byte
little-endian word (the derived `Hash` behaviour). All 64-bit words are
`Nat`s kept below `2 ^ 64` by reducing every primitive modulo `2 ^ 64`.
-/

/-- `2 ^ 64`, the modulus of `u64` arithmetic. -/
def M64 : Nat := 2 ^ 64

/-- Wrapping 64-bit addition. -/
def wadd (a b : Nat) : Nat := (a + b) % M64

/-- 64-bit xor; the reduction is the identity on arguments below `2 ^ 64`. -/
def wxor (a b : Nat) : Nat := (a ^^^ b) % M64

/-- 64-bit left rotation by `n` bits (for `x < 2 ^ 64`, `0 < n < 64`). -/
def rotl (x n : Nat) : Nat := (x * 2 ^ n + x / 2 ^ (64 - n)) % M64

/-- The four 64-bit lanes of a SipHash state. -/
structure SipState where
  v0 : Nat
  v1 : Nat
  v2 : Nat
  v3 : Nat
  deriving Repr

/-- One SipRound. -/
def sipround (s : SipState) : SipState :=
  let v0 := wadd s.v0 s.v1
  let v1 := rotl s.v1 13
  let v1 := wxor v1 v0
  let v0 := rotl v0 32
  let v2 := wadd s.v2 s.v3
  let v3 := rotl s.v3 16
  let v3 := wxor v3 v2
  let v0 := wadd v0 v3
  let v3 := rotl v3 21
  let v3 := wxor v3 v0
  let v2 := wadd v2 v1
  let v1 := rotl v1 17
  let v1 := wxor v1 v2
  let v2 := rotl v2 32
  SipState.mk v0 v1 v2 v3

/-- Absorb one 8-byte message word (SipHash-1-3: a single compression
round per word). -/
def processWord (s : SipState) (m : Nat) : SipState :=
  let s1 := SipState.mk s.v0 s.v1 s.v2 (wxor s.v3 m)
  let s2 := sipround s1
  SipState.mk (wxor s2.v0 m) s2.v1 s2.v2 s2.v3

/-- The SipHash initial state for key `(0, 0)`, std's `DefaultHasher::new()`. -/
def sipInit : SipState :=
  SipState.mk 0x736f6d6570736575 0x646f72616e646f6d 0x6c7967656e657261 0x7465646279746573

/-- Little-endian word value of a byte list (first byte least significant). -/
def bytesToWordLE (bs : List Nat) : Nat :=
  bs.foldr (fun b acc => acc * 256 + b) 0

/-- Absorb all complete 8-byte words of the message; return the resulting
state and the remaining tail of fewer than 8 bytes. -/
def sipWords : SipState → List Nat → SipState × List Nat
  | s, b0 :: b1 :: b2 :: b3 :: b4 :: b5 :: b6 :: b7 :: rest =>
      sipWords (processWord s (bytesToWordLE [b0, b1, b2, b3, b4, b5, b6, b7])) rest
  | s, rest => (s, rest)

/-- SipHash finalization (SipHash-1-3: three final rounds). -/
def sipFinish (s : SipState) : Nat :=
  let s1 := SipState.mk s.v0 s.v1 (wxor s.v2 0xff) s.v3
  let s2 := sipround (sipround (sipround s1))
  wxor (wxor (wxor s2.v0 s2.v1) s2.v2) s2.v3

/-- SipHash-1-3 with key `(0, 0)` of a byte list: absorb the full words,
then the final word holding the tail bytes and the message length in the
top byte, then finalize. -/
def sipHash13 (bs : List Nat) : Nat :=
  let p := sipWords sipInit bs
  let b := (bs.length % 256) * 2 ^ 56 + bytesToWordLE p.2
  sipFinish (processWord p.1 (b % M64))

/-- The variant index of a key, the discriminant a derived `Hash` writes. -/
def Key.discriminant : Key → Nat
  | Key.One => 0
  | Key.Two => 1
  | Key.Three => 2
  | Key.Four => 3
  | Key.Enter => 4

/-- The 8 little-endian bytes of a 64-bit value (`write_usize`). -/
def natToBytesLE8 (n : Nat) : List Nat :=
  [n % 256, n / 2 ^ 8 % 256, n / 2 ^ 16 % 256, n / 2 ^ 24 % 256,
   n / 2 ^ 32 % 256, n / 2 ^ 40 % 256, n / 2 ^ 48 % 256, n / 2 ^ 56 % 256]

/-- The byte stream a `Vec<Key>` feeds to the hasher: the length prefix
followed by each key's discriminant, each as an 8-byte word. -/
def keyVecBytes (ks : List Key) : List Nat :=
  natToBytesLE8 ks.length ++ List.flatten (ks.map (fun k => natToBytesLE8 k.discriminant))

/-- `hash` from `src/traits.rs` applied to a `Vec<Key>`: feed the vector's
byte stream to a fresh `DefaultHasher` and finish. -/
def hash (ks : List Key) : Nat := sipHash13 (keyVecBytes ks)

/-- The pin sequence used by the tests in `src/atm.rs`:
`vec![Key::One, Key::Two, Key::Three, Key::Four]`. -/
def pinSequence : List Key := [Key.One, Key.Two, Key.Three, Key.Four]

/-! ## Claims -/

/-- C1: the claim says that for `h = hash [One, Two, Three, Four]`,
`next_state (Authenticating h) (PressKey Enter) = Authenticated`, and
`Waiting` for any other submitted hash. The code instead compares the
hash in the state against the hardcoded constant `1234`: on
`Authenticating (hash pinSequence)` the `Enter` press yields `Waiting`
(the repo's own test `sm_3_enter_correct_pin` expects `Authenticated`),
while the mismatched hash `1234` yields `Authenticated`. -/
theorem c1_enter_checks_hardcoded_constant_not_pin_hash :
    hash pinSequence = 9144871353323486087 ∧
    hash pinSequence ≠ expected_pin_hash ∧
    Atm.next_state (Auth.Authenticating (hash pinSequence)) (Action.PressKey Key.Enter) =
      Auth.Waiting ∧
    Atm.next_state (Auth.Authenticating 1234) (Action.PressKey Key.Enter) =
      Auth.Authenticated := by
  refine ⟨by decide, by decide, ?_, by decide⟩
  show (if hash pinSequence = expected_pin_hash then Auth.Authenticated else Auth.Waiting) =
    Auth.Waiting
  rw [if_neg (by decide)]

/-- C2: the claim says `next_state Authenticated (PressKey Enter) = Waiting`.
The code's arm `(Authenticated, PressKey(_))` also catches `Enter` and
returns `Authenticated`, contradicting the repo's own tests
`sm_3_try_to_withdraw_too_much` and `sm_3_withdraw_acceptable_amount`. -/
theorem c2_enter_in_authenticated_does_not_reset :
    Atm.next_state Auth.Authenticated (Action.PressKey Key.Enter) = Auth.Authenticated := by
  decide

/-- C3: the claim says `next_state (Authenticating h) (SwipeCard h2) =
Authenticating h2`. The code has no arm for this pair, so it falls through
to the catch-all and returns `Waiting`, contradicting the repo's own test
`sm_3_swipe_card_again_part_way_through` (which uses `h = h2 = 1234`). -/
theorem c3_reswipe_mid_entry_falls_through_to_waiting :
    Atm.next_state (Auth.Authenticating 1234) (Action.SwipeCard 1234) = Auth.Waiting ∧
    Atm.next_state (Auth.Authenticating 7) (Action.SwipeCard 9) = Auth.Waiting := by
  exact ⟨rfl, rfl⟩

/-- C4: pressing `Enter` in `Authenticating h` authenticates exactly when
`h` equals the hardcoded constant `1234`, for every `h`. -/
theorem c4_enter_authenticates_iff_hash_is_1234 (h : Nat) :
    Atm.next_state (Auth.Authenticating h) (Action.PressKey Key.Enter) = Auth.Authenticated ↔
      h = expected_pin_hash := by
  show (if h = expected_pin_hash then Auth.Authenticated else Auth.Waiting) =
    Auth.Authenticated ↔ h = expected_pin_hash
  split <;> simp_all

/-- C5: swiping a card in the idle state begins a session remembering the
swiped pin hash: `next_state Waiting (SwipeCard h) = Authenticating h`. -/
theorem c5_swipe_from_waiting_starts_authenticating (h : Nat) :
    Atm.next_state Auth.Waiting (Action.SwipeCard h) = Auth.Authenticating h := rfl

/-- C6: pressing any key other than `Enter` during PIN entry leaves the
state, including its stored hash, unchanged. -/
theorem c6_digit_key_keeps_authenticating (h : Nat) (k : Key) (hk : k ≠ Key.Enter) :
    Atm.next_state (Auth.Authenticating h) (Action.PressKey k) = Auth.Authenticating h := by
  cases k with
  | Enter => exact absurd rfl hk
  | One => rfl
  | Two => rfl
  | Three => rfl
  | Four => rfl

/-- Witness for C6 at `h = 5`, `k = One`. -/
theorem c6_digit_key_keeps_authenticating_witness :
    Key.One ≠ Key.Enter ∧
    Atm.next_state (Auth.Authenticating 5) (Action.PressKey Key.One) =
      Auth.Authenticating 5 :=
  ⟨by decide, c6_digit_key_keeps_authenticating 5 Key.One (by decide)⟩

/-- C7: `next_state` is a total function (it is a Lean function
`Auth → Action → Auth`, so every pair maps to exactly one state and there
is no error channel), and every pair not matched by a listed rule of the
spec's transition table results in the fail-safe `Waiting`. -/
theorem c7_unlisted_pairs_fail_safe_to_waiting (s : Auth) (t : Action)
    (hst : listedRule s t = false) : Atm.next_state s t = Auth.Waiting := by
  cases s <;> cases t <;> first
    | rfl
    | exact absurd hst (by simp [listedRule])

/-- Witness for C7 at the unlisted pair `(Authenticated, SwipeCard 5)`. -/
theorem c7_unlisted_pairs_fail_safe_to_waiting_witness :
    listedRule Auth.Authenticated (Action.SwipeCard 5) = false ∧
    Atm.next_state Auth.Authenticated (Action.SwipeCard 5) = Auth.Waiting :=
  ⟨by decide, c7_unlisted_pairs_fail_safe_to_waiting Auth.Authenticated
    (Action.SwipeCard 5) (by decide)⟩

/-- C8: the hash is deterministic — equal ordered key sequences always
hash to the same result — and the result is a 64-bit value. -/
theorem c8_hash_deterministic_64bit (p : List Key) :
    hash p = hash p ∧ hash p < 2 ^ 64 := by
  refine ⟨rfl, ?_⟩
  show sipFinish _ < 2 ^ 64
  unfold sipFinish wxor
  exact Nat.mod_lt _ (by decide)

/-- C9: `Auth::default()` returns the `Waiting` variant. -/
theorem c9_default_auth_is_waiting : Auth.default = Auth.Waiting := rfl

/-- C10: no single-step authentication from idle: no transition maps
`Waiting` directly to `Authenticated`. -/
theorem c10_no_direct_authentication_from_waiting (t : Action) :
    Atm.next_state Auth.Waiting t ≠ Auth.Authenticated := by
  cases t with
  | SwipeCard h => exact fun hc => Auth.noConfusion hc
  | PressKey k => exact fun hc => Auth.noConfusion hc

end StateMachineAtm
